import Mathlib

/-!
Shallow embedding of the self-update subsystem of `claude-commit` (`main.go`,
`handleUpdate`, `copyFile`, `calculateSHA256` call sites), together with
theorems settling the spec claims about it.

The embedding models the sequential control flow of `handleUpdate` as a pure
function over an environment that supplies the values the real run obtains
from the outside world (the decoded release, the platform identifiers, the
downloaded manifest text, the SHA-256 digest of the downloaded bytes, and a
success/failure oracle for each fallible system call).  Filesystem effects on
the three paths that matter (the installed executable, its `.old` backup
sibling, and the temporary download file) are tracked explicitly.

A Go-specific point that the model reproduces faithfully: `os.Exit` terminates
the process immediately WITHOUT running deferred functions, so the
`defer os.Remove(tmpPath)` in `handleUpdate` only runs on the normal-return
exit paths, never on the `os.Exit(1)` error paths.
-/

namespace ClaudeCommit

/-- The constant `VERSION = "v1.0.10"` (main.go line 25). -/
def VERSION : String := "v1.0.10"

/-- One element of `GithubRelease.Assets` (main.go lines 309-312). -/
structure Asset where
  name : String
  browserDownloadURL : String
deriving Repr, DecidableEq

/-- The release shape `type GithubRelease` (main.go lines 307-313). -/
structure GithubRelease where
  tagName : String
  assets : List Asset
deriving Repr, DecidableEq

/-- The expected asset name `cc-<os>-<arch>` plus the
`.exe` suffix on Windows (main.go lines 358-361). -/
def binaryName (osName arch : String) : String :=
  let base := "cc-" ++ osName ++ "-" ++ arch
  if osName = "windows" then base ++ ".exe" else base

/-- The asset-resolution loop (main.go lines 364-371): scan all assets,
recording the download URL of any asset whose name equals the binary name and
of any asset named `checksums.txt`.  There is no `break`, so a later matching
asset overwrites an earlier one, exactly as in the Go loop. -/
def resolveStep (binName : String) (acc : String × String) (asset : Asset) : String × String :=
  (if asset.name = binName then asset.browserDownloadURL else acc.1,
   if asset.name = "checksums.txt" then asset.browserDownloadURL else acc.2)

def resolveURLs (assets : List Asset) (binName : String) : String × String :=
  assets.foldl (resolveStep binName) ("", "")

/-- Go's `unicode.IsSpace`: the Unicode White_Space property, which is what
`strings.Fields` splits on. -/
def isGoSpace (c : Char) : Bool :=
  let n := c.toNat
  decide ((9 ≤ n ∧ n ≤ 13) ∨ n = 32 ∨ n = 133 ∨ n = 160 ∨ n = 0x1680 ∨
    (0x2000 ≤ n ∧ n ≤ 0x200A) ∨ n = 0x2028 ∨ n = 0x2029 ∨ n = 0x202F ∨ n = 0x205F ∨
    n = 0x3000)

/-- Split a character list at every character satisfying `p`, keeping the
(possibly empty) pieces between separators.  This is the character-level
semantics shared by Go's `strings.Split` (with a one-character separator)
and `strings.FieldsFunc`. -/
def splitListP (p : Char → Bool) : List Char → List (List Char)
  | [] => [[]]
  | c :: cs =>
    let r := splitListP p cs
    if p c then [] :: r
    else
      match r with
      | [] => [[c]]
      | h :: t => (c :: h) :: t

/-- Go's `strings.Split(s, "\n")`: the lines of `s`, empty pieces kept. -/
def goSplitNewline (s : String) : List String :=
  (splitListP (fun c => c == '\n') s.data).map (fun cs => String.mk cs)

/-- Go's `strings.Fields`: split around runs of white space, dropping empty
pieces. -/
def goFields (s : String) : List String :=
  ((splitListP isGoSpace s.data).filter (fun l => !l.isEmpty)).map (fun cs => String.mk cs)

/-- The manifest-parsing loop (main.go lines 400-407): walk the lines in
order; the first line whose `strings.Fields` has exactly two fields with the
second equal to the binary name yields its first field (the loop `break`s);
if no line matches the result is the empty string. -/
def parseChecksum : List String → String → String
  | [], _ => ""
  | l :: rest, name =>
    match goFields l with
    | [d, n] => if n = name then d else parseChecksum rest name
    | _ => parseChecksum rest name

/-- Abstract identity of a file's byte content. `original` is the running
executable's content, `newBinary` the verified downloaded update, and
`truncatedData` anything else (an empty or truncated file left behind by an
interrupted write). -/
inductive FileData
  | original
  | newBinary
  | truncatedData
deriving Repr, DecidableEq

/-- A file: its content identity and its permission mode bits. -/
structure FileC where
  data : FileData
  mode : Nat
deriving Repr, DecidableEq

/-- The three filesystem locations the update touches on the Unix path:
the executable's canonical path, its `.old` backup sibling, and the
temporary download file. `none` means no file exists at that location. -/
structure UnixFS where
  exe : Option FileC
  old : Option FileC
  tmp : Option FileC
deriving Repr, DecidableEq

/-- How one call to `copyFile` (main.go lines 542-560) can go.  `os.Create`
truncates the destination, so a failure of `io.Copy` after a successful
`os.Create` leaves partial content at the destination; a failed `os.Chmod`
leaves fully copied content but without the 0755 mode. -/
inductive CopyOutcome
  | openFail
  | createFail
  | ioCopyFail
  | chmodFail
  | ok
deriving Repr, DecidableEq

/-- The function `copyFile(src, dst)` (main.go lines 542-560) modelled on the abstract
filesystem: returns whether the call succeeded and the resulting file at the
destination.  `os.Create` uses mode 0666 (before umask); on full success the
final `os.Chmod(dst, 0755)` sets mode 0755 regardless of the source's mode. -/
def copyFile (o : CopyOutcome) (src : FileC) (dst : Option FileC) : Bool × Option FileC :=
  match o with
  | .openFail => (false, dst)
  | .createFail => (false, dst)
  | .ioCopyFail => (false, some ⟨FileData.truncatedData, 0o666⟩)
  | .chmodFail => (false, some ⟨src.data, 0o666⟩)
  | .ok => (true, some ⟨src.data, 0o755⟩)

/-- Success/failure oracle for the fallible system calls of the Unix
replacement sequence (main.go lines 516-537). -/
structure UnixOracle where
  renameExeOld : Bool
  copyNoBackup : CopyOutcome
  renameTmpExe : Bool
  copyWithBackup : CopyOutcome
  renameRestore : Bool
  removeOld : Bool
deriving Repr, DecidableEq

/-- Result of the Unix replacement sequence: `installed` reaches the success
message, `failed` reaches an `os.Exit(1)`. -/
inductive ReplaceResult
  | installed
  | failed
deriving Repr, DecidableEq

/-- The Unix replacement sequence (main.go lines 516-537):
rename the executable to `.old`; if that fails, fall back to a direct
`copyFile` of the temporary file over the executable path.  If the rename
succeeded, rename the temporary file into place, falling back to `copyFile`;
if that copy also fails, attempt to restore by renaming `.old` back (its
error is ignored) and fail.  On success remove `.old` (error ignored). -/
def unixReplace (o : UnixOracle) (fs : UnixFS) : ReplaceResult × UnixFS :=
  match fs.tmp with
  | none => (ReplaceResult.failed, fs)
  | some tmpF =>
    if o.renameExeOld then
      let fs1 : UnixFS := ⟨none, fs.exe, fs.tmp⟩
      if o.renameTmpExe then
        let fs2 : UnixFS := ⟨fs1.tmp, fs1.old, none⟩
        (ReplaceResult.installed, if o.removeOld then ⟨fs2.exe, none, fs2.tmp⟩ else fs2)
      else
        let r := copyFile o.copyWithBackup tmpF fs1.exe
        if r.1 then
          let fs2 : UnixFS := ⟨r.2, fs1.old, fs1.tmp⟩
          (ReplaceResult.installed, if o.removeOld then ⟨fs2.exe, none, fs2.tmp⟩ else fs2)
        else
          let fs2 : UnixFS := ⟨r.2, fs1.old, fs1.tmp⟩
          (ReplaceResult.failed, if o.renameRestore then ⟨fs2.old, none, fs2.tmp⟩ else fs2)
    else
      let r := copyFile o.copyNoBackup tmpF fs.exe
      (if r.1 then ReplaceResult.installed else ReplaceResult.failed, ⟨r.2, fs.old, fs.tmp⟩)

/-- Everything the real `handleUpdate` run obtains from outside: the decoded
release, the platform, the manifest text, the digest of the downloaded bytes
(`calculateSHA256` of the temporary file), and success flags for each
fallible call. -/
structure Env where
  release : GithubRelease
  goos : String
  goarch : String
  checksumFetchOk : Bool
  checksumData : String
  binaryFetchOk : Bool
  binaryStatus : Nat
  createTempOk : Bool
  writeTempOk : Bool
  shaOk : Bool
  tempDigest : String
  chmodOk : Bool
  exePathOk : Bool
  winCopyOk : Bool
  winWriteOk : Bool
  exeMode : Nat
  oracle : UnixOracle
deriving Repr, DecidableEq

/-- Network download events, in the order they are performed. -/
inductive Ev
  | downloadChecksums
  | downloadBinary
deriving Repr, DecidableEq

/-- How the run terminates.  Every `err…` constructor is an `os.Exit(1)`;
`alreadyCurrent` and `installed` are normal returns (exit status 0);
`windowsHandoff` is the `os.Exit(0)` after spawning the update script. -/
inductive Outcome
  | alreadyCurrent
  | errNoBinary
  | errNoChecksums
  | errChecksumFetch
  | errNoChecksumForAsset
  | errBinaryFetch
  | errBinaryStatus
  | errCreateTemp
  | errWriteTemp
  | errSha
  | errChecksumMismatch
  | errChmod
  | errExePath
  | errWinCopy
  | errWinWrite
  | windowsHandoff
  | errReplace
  | installed
deriving Repr, DecidableEq

/-- The process exit status corresponding to each outcome. -/
def exitCode : Outcome → Nat
  | .alreadyCurrent => 0
  | .windowsHandoff => 0
  | .installed => 0
  | _ => 1

/-- Observable result of one `handleUpdate` run: terminal outcome, the
network downloads performed, whether the temporary file was ever created,
whether it still exists when the process has ended (deferred removal runs
only on normal returns, never after `os.Exit`), whether the checksum
verification step was passed, and the final Unix filesystem state. -/
structure RunResult where
  outcome : Outcome
  events : List Ev
  tempCreated : Bool
  tempExistsAtEnd : Bool
  verified : Bool
  fs : UnixFS
deriving Repr, DecidableEq

/-- Initial filesystem: the running executable, no backup, no temp file. -/
def fsInit (exeMode : Nat) : UnixFS :=
  ⟨some ⟨FileData.original, exeMode⟩, none, none⟩

/-- After `os.CreateTemp` (mode 0600) but before the download is written. -/
def fsAfterCreate (exeMode : Nat) : UnixFS :=
  ⟨some ⟨FileData.original, exeMode⟩, none, some ⟨FileData.truncatedData, 0o600⟩⟩

/-- After the downloaded bytes are written to the temporary file. -/
def fsAfterWrite (exeMode : Nat) : UnixFS :=
  ⟨some ⟨FileData.original, exeMode⟩, none, some ⟨FileData.newBinary, 0o600⟩⟩

/-- After `os.Chmod(tmpPath, 0755)` (main.go line 463). -/
def fsAfterChmod (exeMode : Nat) : UnixFS :=
  ⟨some ⟨FileData.original, exeMode⟩, none, some ⟨FileData.newBinary, 0o755⟩⟩

/-- The expected binary asset name for the environment's platform. -/
def binNameOf (env : Env) : String := binaryName env.goos env.goarch

/-- The resolved (downloadURL, checksumURL) pair for the environment. -/
def urlsOf (env : Env) : String × String := resolveURLs env.release.assets (binNameOf env)

/-- The expected checksum parsed from the manifest text
(`strings.Split(string(checksumData), "\n")` then the field scan). -/
def expectedOf (env : Env) : String :=
  parseChecksum (goSplitNewline env.checksumData) (binNameOf env)

/-- Both downloads (manifest then binary) have been performed, in this
order. -/
def dlBoth : List Ev := [Ev.downloadChecksums, Ev.downloadBinary]

/-- Atomic Replacement stage (main.go lines 462-540), entered only after the
checksum has verified: `os.Chmod(tmpPath, 0755)`, `os.Executable()`, then the
Windows hand-off branch or the Unix replacement sequence.  On the Unix
success path `handleUpdate` returns normally, so the deferred
`os.Remove(tmpPath)` runs; on every `os.Exit` branch it does not. -/
def stageReplace (env : Env) : RunResult :=
  if env.chmodOk = false then
    ⟨Outcome.errChmod, dlBoth, true, true, true, fsAfterWrite env.exeMode⟩
  else if env.exePathOk = false then
    ⟨Outcome.errExePath, dlBoth, true, true, true, fsAfterChmod env.exeMode⟩
  else if env.goos = "windows" then
    if env.winCopyOk = false then
      ⟨Outcome.errWinCopy, dlBoth, true, true, true, fsAfterChmod env.exeMode⟩
    else if env.winWriteOk = false then
      ⟨Outcome.errWinWrite, dlBoth, true, true, true, fsAfterChmod env.exeMode⟩
    else
      ⟨Outcome.windowsHandoff, dlBoth, true, true, true, fsAfterChmod env.exeMode⟩
  else
    match unixReplace env.oracle (fsAfterChmod env.exeMode) with
    | (ReplaceResult.installed, fs2) =>
      ⟨Outcome.installed, dlBoth, true, false, true, ⟨fs2.exe, fs2.old, none⟩⟩
    | (ReplaceResult.failed, fs2) =>
      ⟨Outcome.errReplace, dlBoth, true, fs2.tmp.isSome, true, fs2⟩

/-- Verification part of the Verified Download stage (main.go lines
428-460): create the temporary file, write the downloaded bytes into it,
compute its SHA-256 digest and compare with the expected one. -/
def stageVerify (env : Env) : RunResult :=
  if env.createTempOk = false then
    ⟨Outcome.errCreateTemp, dlBoth, false, false, false, fsInit env.exeMode⟩
  else if env.writeTempOk = false then
    ⟨Outcome.errWriteTemp, dlBoth, true, true, false, fsAfterCreate env.exeMode⟩
  else if env.shaOk = false then
    ⟨Outcome.errSha, dlBoth, true, true, false, fsAfterWrite env.exeMode⟩
  else if env.tempDigest ≠ expectedOf env then
    ⟨Outcome.errChecksumMismatch, dlBoth, true, true, false, fsAfterWrite env.exeMode⟩
  else
    stageReplace env

/-- Binary download part of the Verified Download stage (main.go lines
414-426): `http.Get` of the binary asset, requiring HTTP status 200. -/
def stageDownloadBinary (env : Env) : RunResult :=
  if env.binaryFetchOk = false then
    ⟨Outcome.errBinaryFetch, dlBoth, false, false, false, fsInit env.exeMode⟩
  else if env.binaryStatus ≠ 200 then
    ⟨Outcome.errBinaryStatus, dlBoth, false, false, false, fsInit env.exeMode⟩
  else
    stageVerify env

/-- Manifest part of the Verified Download stage (main.go lines 384-412):
download the checksum manifest, parse it, and look up the expected digest
for the binary's asset name — the lookup happens here, BEFORE the binary is
downloaded. -/
def stageManifest (env : Env) : RunResult :=
  if env.checksumFetchOk = false then
    ⟨Outcome.errChecksumFetch, [Ev.downloadChecksums], false, false, false, fsInit env.exeMode⟩
  else if expectedOf env = "" then
    ⟨Outcome.errNoChecksumForAsset, [Ev.downloadChecksums], false, false, false,
      fsInit env.exeMode⟩
  else
    stageDownloadBinary env

/-- Asset Resolution stage (main.go lines 353-382): require a matching
binary asset and a `checksums.txt` asset before anything is downloaded. -/
def stageResolve (env : Env) : RunResult :=
  if (urlsOf env).1 = "" then
    ⟨Outcome.errNoBinary, [], false, false, false, fsInit env.exeMode⟩
  else if (urlsOf env).2 = "" then
    ⟨Outcome.errNoChecksums, [], false, false, false, fsInit env.exeMode⟩
  else
    stageManifest env

/-- The `handleUpdate` control flow (main.go lines 315-540), after the
release JSON has been fetched and decoded, as a function of the environment.
The stage functions mirror the sequential early-exit structure of the Go
code in source order. -/
def run (env : Env) : RunResult :=
  if env.release.tagName = VERSION then
    ⟨Outcome.alreadyCurrent, [], false, false, false, fsInit env.exeMode⟩
  else
    stageResolve env

/-!  ## Helper lemmas (shared)  -/

theorem foldl_resolveStep_fst (binName : String) (assets : List Asset)
    (h : ∀ a ∈ assets, a.name ≠ binName) (acc : String × String) :
    (assets.foldl (resolveStep binName) acc).1 = acc.1 := by
  induction assets generalizing acc with
  | nil => rfl
  | cons a as ih =>
    rw [List.foldl_cons, ih (fun b hb => h b (List.mem_cons_of_mem a hb)) _]
    simp [resolveStep, h a (List.mem_cons_self a as)]

theorem foldl_resolveStep_snd (binName : String) (assets : List Asset)
    (h : ∀ a ∈ assets, a.name ≠ "checksums.txt") (acc : String × String) :
    (assets.foldl (resolveStep binName) acc).2 = acc.2 := by
  induction assets generalizing acc with
  | nil => rfl
  | cons a as ih =>
    rw [List.foldl_cons, ih (fun b hb => h b (List.mem_cons_of_mem a hb)) _]
    simp [resolveStep, h a (List.mem_cons_self a as)]

/-- If no asset is named like the platform binary, resolution finds no
download URL. -/
theorem resolveURLs_fst_empty (assets : List Asset) (binName : String)
    (h : ∀ a ∈ assets, a.name ≠ binName) : (resolveURLs assets binName).1 = "" :=
  foldl_resolveStep_fst binName assets h ("", "")

/-- If no asset is named `checksums.txt`, resolution finds no manifest URL. -/
theorem resolveURLs_snd_empty (assets : List Asset) (binName : String)
    (h : ∀ a ∈ assets, a.name ≠ "checksums.txt") : (resolveURLs assets binName).2 = "" :=
  foldl_resolveStep_snd binName assets h ("", "")

/-- Every branch of the Atomic Replacement stage has passed checksum
verification. -/
theorem stageReplace_verified (env : Env) : (stageReplace env).verified = true := by
  unfold stageReplace
  repeat' split
  all_goals rfl

/-- Full case characterization of the Atomic Replacement stage: either it
stops on an error or the Windows hand-off, leaving the installed executable
untouched, or the Unix replacement sequence ran and its result is exposed. -/
theorem stageReplace_cases (env : Env) :
    ((stageReplace env).outcome ∈ [Outcome.errChmod, Outcome.errExePath, Outcome.errWinCopy,
        Outcome.errWinWrite, Outcome.windowsHandoff] ∧
      (stageReplace env).fs.exe = some ⟨FileData.original, env.exeMode⟩) ∨
    (∃ fs2, unixReplace env.oracle (fsAfterChmod env.exeMode) = (ReplaceResult.installed, fs2) ∧
      stageReplace env = ⟨Outcome.installed, dlBoth, true, false, true, ⟨fs2.exe, fs2.old, none⟩⟩) ∨
    (∃ fs2, unixReplace env.oracle (fsAfterChmod env.exeMode) = (ReplaceResult.failed, fs2) ∧
      stageReplace env = ⟨Outcome.errReplace, dlBoth, true, fs2.tmp.isSome, true, fs2⟩) := by
  unfold stageReplace
  repeat' split
  all_goals try (left; exact ⟨by simp, rfl⟩)
  case _ heq =>
    right; left
    exact ⟨_, heq, rfl⟩
  case _ heq =>
    right; right
    exact ⟨_, heq, rfl⟩

/-- Case characterization of the verification stage. -/
theorem stageVerify_cases (env : Env) :
    stageVerify env = stageReplace env ∨
    ((stageVerify env).outcome ∈ [Outcome.errCreateTemp, Outcome.errWriteTemp, Outcome.errSha,
        Outcome.errChecksumMismatch] ∧
      (stageVerify env).fs.exe = some ⟨FileData.original, env.exeMode⟩ ∧
      (stageVerify env).verified = false) := by
  unfold stageVerify
  repeat' split
  all_goals try (left; rfl)
  all_goals right
  all_goals exact ⟨by simp, rfl, rfl⟩

/-- Case characterization of the binary-download stage. -/
theorem stageDownloadBinary_cases (env : Env) :
    stageDownloadBinary env = stageVerify env ∨
    ((stageDownloadBinary env).outcome ∈ [Outcome.errBinaryFetch, Outcome.errBinaryStatus] ∧
      (stageDownloadBinary env).fs.exe = some ⟨FileData.original, env.exeMode⟩ ∧
      (stageDownloadBinary env).verified = false ∧
      (stageDownloadBinary env).tempCreated = false) := by
  unfold stageDownloadBinary
  repeat' split
  all_goals try (left; rfl)
  all_goals right
  all_goals exact ⟨by simp, rfl, rfl, rfl⟩

/-- Case characterization of the manifest stage. -/
theorem stageManifest_cases (env : Env) :
    stageManifest env = stageDownloadBinary env ∨
    ((stageManifest env).outcome ∈ [Outcome.errChecksumFetch, Outcome.errNoChecksumForAsset] ∧
      (stageManifest env).fs.exe = some ⟨FileData.original, env.exeMode⟩ ∧
      (stageManifest env).verified = false ∧
      (stageManifest env).tempCreated = false ∧
      (stageManifest env).events = [Ev.downloadChecksums]) := by
  unfold stageManifest
  repeat' split
  all_goals try (left; rfl)
  all_goals right
  all_goals exact ⟨by simp, rfl, rfl, rfl, rfl⟩

/-- Case characterization of the asset-resolution stage. -/
theorem stageResolve_cases (env : Env) :
    stageResolve env = stageManifest env ∨
    ((stageResolve env).outcome ∈ [Outcome.errNoBinary, Outcome.errNoChecksums] ∧
      (stageResolve env).fs.exe = some ⟨FileData.original, env.exeMode⟩ ∧
      (stageResolve env).verified = false ∧
      (stageResolve env).tempCreated = false ∧
      (stageResolve env).events = []) := by
  unfold stageResolve
  repeat' split
  all_goals try (left; rfl)
  all_goals right
  all_goals exact ⟨by simp, rfl, rfl, rfl, rfl⟩

/-- If the Unix replacement sequence starts with the new binary in the
temporary file (mode 0755) and reports success, the file at the canonical
executable path is the new binary with mode 0755. -/
theorem unixReplace_installed_exe (o : UnixOracle) (fs : UnixFS)
    (htmp : fs.tmp = some ⟨FileData.newBinary, 0o755⟩)
    (hres : (unixReplace o fs).1 = ReplaceResult.installed) :
    ((unixReplace o fs).2).exe = some ⟨FileData.newBinary, 0o755⟩ := by
  obtain ⟨b1, c1, b2, c2, b3, b4⟩ := o
  revert hres
  cases b1 <;> cases c1 <;> cases b2 <;> cases c2 <;> cases b3 <;> cases b4 <;>
    simp [unixReplace, htmp, copyFile]

/-- The Atomic Replacement stage never reports "already current". -/
theorem stageReplace_outcome_ne_alreadyCurrent (env : Env) :
    (stageReplace env).outcome ≠ Outcome.alreadyCurrent := by
  unfold stageReplace
  repeat' split
  all_goals simp

/-- When the tag differs from the running version, the run proceeds into
asset resolution. -/
theorem run_eq_stageResolve (env : Env) (htag : env.release.tagName ≠ VERSION) :
    run env = stageResolve env := by
  unfold run
  rw [if_neg htag]

/-- Case characterization of the whole run when an update is attempted:
either it reaches the Atomic Replacement stage, or it stopped on one of the
pre-replacement errors, leaving the installed executable untouched and the
checksum unverified. -/
theorem run_cases (env : Env) (htag : env.release.tagName ≠ VERSION) :
    run env = stageReplace env ∨
    ((run env).outcome ∈ [Outcome.errNoBinary, Outcome.errNoChecksums, Outcome.errChecksumFetch,
        Outcome.errNoChecksumForAsset, Outcome.errBinaryFetch, Outcome.errBinaryStatus,
        Outcome.errCreateTemp, Outcome.errWriteTemp, Outcome.errSha,
        Outcome.errChecksumMismatch] ∧
      (run env).fs.exe = some ⟨FileData.original, env.exeMode⟩ ∧
      (run env).verified = false) := by
  rw [run_eq_stageResolve env htag]
  rcases stageResolve_cases env with h1 | ⟨ho, he, hv, _, _⟩
  · rw [h1]
    rcases stageManifest_cases env with h2 | ⟨ho, he, hv, _, _⟩
    · rw [h2]
      rcases stageDownloadBinary_cases env with h3 | ⟨ho, he, hv, _⟩
      · rw [h3]
        rcases stageVerify_cases env with h4 | ⟨ho, he, hv⟩
        · rw [h4]; left; rfl
        · right
          refine ⟨?_, he, hv⟩
          simp only [List.mem_cons] at ho ⊢
          tauto
      · right
        refine ⟨?_, he, hv⟩
        simp only [List.mem_cons] at ho ⊢
        tauto
    · right
      refine ⟨?_, he, hv⟩
      simp only [List.mem_cons] at ho ⊢
      tauto
  · right
    refine ⟨?_, he, hv⟩
    simp only [List.mem_cons] at ho ⊢
    tauto

/-!  ## Claim theorems  -/

/-- C5: for every release response whose tag is byte-for-byte equal to the
running version string, the update reports being already current and
terminates normally (exit status 0) with no binary download; and when the
tag differs byte-for-byte — even if it were semantically the same version —
the "already current" outcome is never produced, i.e. only byte equality is
consulted, no semantic-version comparison. -/
theorem update_stops_when_tag_equals_version (env : Env) :
    (env.release.tagName = VERSION →
      run env = ⟨Outcome.alreadyCurrent, [], false, false, false, fsInit env.exeMode⟩ ∧
      exitCode (run env).outcome = 0 ∧ (run env).events = []) ∧
    (env.release.tagName ≠ VERSION → (run env).outcome ≠ Outcome.alreadyCurrent) := by
  constructor
  · intro h
    have hr : run env = ⟨Outcome.alreadyCurrent, [], false, false, false, fsInit env.exeMode⟩ := by
      unfold run
      rw [if_pos h]
    refine ⟨hr, ?_, ?_⟩
    · rw [hr]
      rfl
    · rw [hr]

  · intro htag hc
    rcases run_cases env htag with h | ⟨ho, _, _⟩
    · rw [h] at hc
      exact stageReplace_outcome_ne_alreadyCurrent env hc
    · rw [hc] at ho
      simp at ho

/-- Environment for the C5 witness: the release tag equals the running
version `v1.0.10`. -/
def envC5 : Env :=
  { release := ⟨"v1.0.10", [⟨"cc-linux-amd64", "https://host/bin"⟩]⟩
    goos := "linux", goarch := "amd64"
    checksumFetchOk := true, checksumData := ""
    binaryFetchOk := true, binaryStatus := 200
    createTempOk := true, writeTempOk := true, shaOk := true
    tempDigest := "", chmodOk := true, exePathOk := true
    winCopyOk := true, winWriteOk := true, exeMode := 0o755
    oracle := ⟨true, CopyOutcome.ok, true, CopyOutcome.ok, true, true⟩ }

/-- C5 witness: a concrete release with tag `v1.0.10` terminates with
"already current", exit status 0 and no downloads. -/
theorem update_stops_when_tag_equals_version_witness :
    run envC5 = ⟨Outcome.alreadyCurrent, [], false, false, false, fsInit envC5.exeMode⟩ ∧
    exitCode (run envC5).outcome = 0 ∧ (run envC5).events = [] :=
  (update_stops_when_tag_equals_version envC5).1 rfl

/-- C6: asset matching is exact and case-sensitive; when no asset name
equals the expected `cc-<os>-<arch>[.exe]` name, the run fails with the
"no binary for this platform" error (exit status 1) and performs no
downloads. -/
theorem exact_asset_match_required (env : Env)
    (htag : env.release.tagName ≠ VERSION)
    (h : ∀ a ∈ env.release.assets, a.name ≠ binNameOf env) :
    (run env).outcome = Outcome.errNoBinary ∧ exitCode (run env).outcome = 1 ∧
    (run env).events = [] := by
  have hfst : (urlsOf env).1 = "" := resolveURLs_fst_empty _ _ h
  rw [run_eq_stageResolve env htag]
  unfold stageResolve
  rw [if_pos hfst]
  exact ⟨rfl, rfl, rfl⟩

/-- Environment for the C6 witness: the only asset is named
`cc-linux-amd64-v2`, which must not match the request for
`cc-linux-amd64`. -/
def envC6 : Env :=
  { release := ⟨"v1.0.11", [⟨"cc-linux-amd64-v2", "https://host/bin-v2"⟩]⟩
    goos := "linux", goarch := "amd64"
    checksumFetchOk := true, checksumData := ""
    binaryFetchOk := true, binaryStatus := 200
    createTempOk := true, writeTempOk := true, shaOk := true
    tempDigest := "", chmodOk := true, exePathOk := true
    winCopyOk := true, winWriteOk := true, exeMode := 0o755
    oracle := ⟨true, CopyOutcome.ok, true, CopyOutcome.ok, true, true⟩ }

/-- C6 witness: `cc-linux-amd64-v2` does not match `cc-linux-amd64`; the
run fails with "no binary for this platform" and downloads nothing. -/
theorem exact_asset_match_required_witness :
    (run envC6).outcome = Outcome.errNoBinary ∧ exitCode (run envC6).outcome = 1 ∧
    (run envC6).events = [] :=
  exact_asset_match_required envC6 (by decide) (by decide)

/-- C2: when the assets contain a matching platform binary but no asset is
named exactly `checksums.txt`, the update aborts with the missing-manifest
failure (exit status 1) before any download is performed — verification is
never skipped. -/
theorem missing_manifest_aborts_before_download (env : Env)
    (htag : env.release.tagName ≠ VERSION)
    (hbin : (urlsOf env).1 ≠ "")
    (hnoc : ∀ a ∈ env.release.assets, a.name ≠ "checksums.txt") :
    (run env).outcome = Outcome.errNoChecksums ∧ exitCode (run env).outcome = 1 ∧
    (run env).events = [] := by
  have hsnd : (urlsOf env).2 = "" := resolveURLs_snd_empty _ _ hnoc
  rw [run_eq_stageResolve env htag]
  unfold stageResolve
  rw [if_neg hbin, if_pos hsnd]
  exact ⟨rfl, rfl, rfl⟩

/-- Environment for the C2 witness: a matching binary asset exists but no
`checksums.txt` asset does. -/
def envC2 : Env :=
  { release := ⟨"v1.0.11", [⟨"cc-linux-amd64", "https://host/bin"⟩,
      ⟨"release-notes.md", "https://host/notes"⟩]⟩
    goos := "linux", goarch := "amd64"
    checksumFetchOk := true, checksumData := ""
    binaryFetchOk := true, binaryStatus := 200
    createTempOk := true, writeTempOk := true, shaOk := true
    tempDigest := "", chmodOk := true, exePathOk := true
    winCopyOk := true, winWriteOk := true, exeMode := 0o755
    oracle := ⟨true, CopyOutcome.ok, true, CopyOutcome.ok, true, true⟩ }

/-- C2 witness: a concrete release with a platform binary but no
`checksums.txt` aborts with the missing-manifest failure and downloads
nothing. -/
theorem missing_manifest_aborts_before_download_witness :
    (run envC2).outcome = Outcome.errNoChecksums ∧ exitCode (run envC2).outcome = 1 ∧
    (run envC2).events = [] :=
  missing_manifest_aborts_before_download envC2 (by decide) (by decide) (by decide)

/-- A manifest line is well-formed for `name` when it has exactly two
whitespace-separated fields and the second equals `name`. -/
def lineMatches (l name : String) : Bool :=
  match goFields l with
  | [_, n] => decide (n = name)
  | _ => false

/-- C8: a manifest line that does not split into exactly two
whitespace-separated fields is ignored by the parsing loop: its presence
anywhere in the line list never changes the parsed result, for any asset
name — in particular it never causes the manifest to be rejected. -/
theorem malformed_manifest_line_ignored (pre post : List String) (bad name : String)
    (h : (goFields bad).length ≠ 2) :
    parseChecksum (pre ++ bad :: post) name = parseChecksum (pre ++ post) name := by
  induction pre with
  | nil =>
    simp only [List.nil_append]
    cases hg : goFields bad with
    | nil => simp [parseChecksum, hg]
    | cons d t =>
      cases t with
      | nil => simp [parseChecksum, hg]
      | cons n t2 =>
        cases t2 with
        | nil => exact absurd (by rw [hg]; rfl) h
        | cons x t3 => simp [parseChecksum, hg]
  | cons l ls ih =>
    simp only [List.cons_append]
    cases hg : goFields l with
    | nil => simp [parseChecksum, hg, ih]
    | cons d t =>
      cases t with
      | nil => simp [parseChecksum, hg, ih]
      | cons n t2 =>
        cases t2 with
        | nil => simp [parseChecksum, hg, ih]
        | cons x t3 => simp [parseChecksum, hg, ih]

/-- C8 witness: inserting the one-field line `sha256sums` between two
well-formed lines leaves the parsed digest unchanged. -/
theorem malformed_manifest_line_ignored_witness :
    (goFields "sha256sums").length ≠ 2 ∧
    parseChecksum ["1111 cc-darwin-arm64", "sha256sums", "2222 cc-linux-amd64"] "cc-linux-amd64"
      = parseChecksum ["1111 cc-darwin-arm64", "2222 cc-linux-amd64"] "cc-linux-amd64" :=
  ⟨by decide,
    malformed_manifest_line_ignored ["1111 cc-darwin-arm64"] ["2222 cc-linux-amd64"]
      "sha256sums" "cc-linux-amd64" (by decide)⟩

/-- C9: when several well-formed manifest lines carry the same asset name,
the parsed digest is the one from the first such line, whatever comes after
it: the loop breaks at the first match and later entries are never
consulted. -/
theorem first_matching_manifest_entry_wins (pre post : List String) (line d name : String)
    (hpre : ∀ l ∈ pre, lineMatches l name = false)
    (hline : goFields line = [d, name]) :
    parseChecksum (pre ++ line :: post) name = d := by
  induction pre with
  | nil =>
    simp [parseChecksum, hline]
  | cons l ls ih =>
    have hl := hpre l (List.mem_cons_self l ls)
    simp only [List.cons_append]
    cases hg : goFields l with
    | nil =>
      simp only [parseChecksum, hg]
      exact ih (fun x hx => hpre x (List.mem_cons_of_mem l hx))
    | cons a t =>
      cases t with
      | nil =>
        simp only [parseChecksum, hg]
        exact ih (fun x hx => hpre x (List.mem_cons_of_mem l hx))
      | cons b t2 =>
        cases t2 with
        | nil =>
          rw [lineMatches, hg] at hl
          simp only [decide_eq_false_iff_not] at hl
          simp only [parseChecksum, hg, if_neg hl]
          exact ih (fun x hx => hpre x (List.mem_cons_of_mem l hx))
        | cons c t3 =>
          simp only [parseChecksum, hg]
          exact ih (fun x hx => hpre x (List.mem_cons_of_mem l hx))

/-- C9 witness: with two entries for `cc-linux-amd64`, the first digest
(`1111`) is parsed, not the later `3333`. -/
theorem first_matching_manifest_entry_wins_witness :
    (∀ l ∈ ["0000 cc-darwin-arm64"], lineMatches l "cc-linux-amd64" = false) ∧
    goFields "1111 cc-linux-amd64" = ["1111", "cc-linux-amd64"] ∧
    parseChecksum ["0000 cc-darwin-arm64", "1111 cc-linux-amd64", "3333 cc-linux-amd64"]
      "cc-linux-amd64" = "1111" :=
  ⟨by decide, by decide,
    first_matching_manifest_entry_wins ["0000 cc-darwin-arm64"] ["3333 cc-linux-amd64"]
      "1111 cc-linux-amd64" "1111" "cc-linux-amd64" (by decide) (by decide)⟩

/-- Lower-case an ASCII letter (for the spec-side comparison only). -/
def asciiLower (c : Char) : Char :=
  if 65 ≤ c.toNat ∧ c.toNat ≤ 90 then Char.ofNat (c.toNat + 32) else c

/-- Modelled from the spec, NOT from the source: the spec's words
"case-insensitive hex comparison" as a predicate on two digest strings.
The source (main.go line 453) instead compares with plain `!=`. -/
def specCaseInsensitiveHexEq (a b : String) : Bool :=
  decide (a.data.map asciiLower = b.data.map asciiLower)

/-- SHA-256 digest (of the string "test"), lower-case hex, as
`hex.EncodeToString` produces it. -/
def digestLower : String :=
  "9f86d081884c7d659a2feaa0c55ad015a3bf4f1b2b0b822cd15d6c15b0f00a08"

/-- The same digest written in upper-case hex, as a manifest author might. -/
def digestUpper : String :=
  "9F86D081884C7D659A2FEAA0C55AD015A3BF4F1B2B0B822CD15D6C15B0F00A08"

/-- A different SHA-256 digest (of the string "hello"), lower-case hex. -/
def digestOther : String :=
  "2cf24dba5fb0a30e26e83b2ac5b9e29e1b161e5c1fa7425e73043362938b9824"

/-- Environment refuting the case-insensitive part of C1: the manifest
records the digest in upper-case hex, the computed digest is the same
value in lower-case hex. -/
def envC1x : Env :=
  { release := ⟨"v1.0.11", [⟨"cc-linux-amd64", "https://host/bin"⟩,
      ⟨"checksums.txt", "https://host/checksums.txt"⟩]⟩
    goos := "linux", goarch := "amd64"
    checksumFetchOk := true
    checksumData := digestUpper ++ "  cc-linux-amd64\n"
    binaryFetchOk := true, binaryStatus := 200
    createTempOk := true, writeTempOk := true, shaOk := true
    tempDigest := digestLower
    chmodOk := true, exePathOk := true
    winCopyOk := true, winWriteOk := true, exeMode := 0o755
    oracle := ⟨true, CopyOutcome.ok, true, CopyOutcome.ok, true, true⟩ }

/-- C1 counterexample: computed and expected digests that are equal under
the spec's case-insensitive hex comparison are nevertheless rejected — the
code compares them byte-for-byte, so verification fails with a checksum
mismatch instead of succeeding as the claim requires. -/
theorem checksum_comparison_not_case_insensitive :
    specCaseInsensitiveHexEq envC1x.tempDigest (expectedOf envC1x) = true ∧
    envC1x.tempDigest ≠ expectedOf envC1x ∧
    (run envC1x).outcome = Outcome.errChecksumMismatch ∧
    (run envC1x).verified = false := by decide

/-- Reaching the verification step: with the pre-verification calls
succeeding, the run proceeds to the digest comparison. -/
theorem run_eq_stageVerify (env : Env)
    (htag : env.release.tagName ≠ VERSION)
    (hbin : (urlsOf env).1 ≠ "") (hsum : (urlsOf env).2 ≠ "")
    (hfetch : env.checksumFetchOk = true)
    (hexp : expectedOf env ≠ "")
    (hbfetch : env.binaryFetchOk = true)
    (hstatus : env.binaryStatus = 200) :
    run env = stageVerify env := by
  rw [run_eq_stageResolve env htag]
  unfold stageResolve
  rw [if_neg hbin, if_neg hsum]
  unfold stageManifest
  rw [if_neg (by simp [hfetch]), if_neg hexp]
  unfold stageDownloadBinary
  rw [if_neg (by simp [hbfetch]), if_neg (by simp [hstatus])]

/-- C1 (amended): the digest comparison is exact byte-for-byte string
equality.  In any run that reaches verification, a digest that differs from
the manifest entry in any byte — including only by hex letter case — fails
with a checksum mismatch, leaving the installed executable untouched; a
byte-for-byte equal digest passes verification. -/
theorem checksum_comparison_exact (env : Env)
    (htag : env.release.tagName ≠ VERSION)
    (hbin : (urlsOf env).1 ≠ "") (hsum : (urlsOf env).2 ≠ "")
    (hfetch : env.checksumFetchOk = true)
    (hexp : expectedOf env ≠ "")
    (hbfetch : env.binaryFetchOk = true)
    (hstatus : env.binaryStatus = 200)
    (hct : env.createTempOk = true) (hwt : env.writeTempOk = true)
    (hsha : env.shaOk = true) :
    (env.tempDigest ≠ expectedOf env →
      (run env).outcome = Outcome.errChecksumMismatch ∧
      exitCode (run env).outcome = 1 ∧
      (run env).verified = false ∧
      (run env).fs.exe = some ⟨FileData.original, env.exeMode⟩) ∧
    (env.tempDigest = expectedOf env → (run env).verified = true) := by
  have hr : run env = stageVerify env :=
    run_eq_stageVerify env htag hbin hsum hfetch hexp hbfetch hstatus
  constructor
  · intro hne
    rw [hr]
    unfold stageVerify
    rw [if_neg (by simp [hct]), if_neg (by simp [hwt]), if_neg (by simp [hsha]), if_pos hne]
    exact ⟨rfl, rfl, rfl, rfl⟩
  · intro heq
    rw [hr]
    unfold stageVerify
    rw [if_neg (by simp [hct]), if_neg (by simp [hwt]), if_neg (by simp [hsha]),
      if_neg (by simp [heq])]
    exact stageReplace_verified env

/-- Environment for the C1 witness: the manifest digest and the computed
digest differ byte-for-byte (they are different values). -/
def envC1w : Env :=
  { release := ⟨"v1.0.11", [⟨"cc-linux-amd64", "https://host/bin"⟩,
      ⟨"checksums.txt", "https://host/checksums.txt"⟩]⟩
    goos := "linux", goarch := "amd64"
    checksumFetchOk := true
    checksumData := digestOther ++ "  cc-linux-amd64\n"
    binaryFetchOk := true, binaryStatus := 200
    createTempOk := true, writeTempOk := true, shaOk := true
    tempDigest := digestLower
    chmodOk := true, exePathOk := true
    winCopyOk := true, winWriteOk := true, exeMode := 0o755
    oracle := ⟨true, CopyOutcome.ok, true, CopyOutcome.ok, true, true⟩ }

/-- C1 witness: a concretely differing digest pair fails with a checksum
mismatch and the installed executable is untouched. -/
theorem checksum_comparison_exact_witness :
    (run envC1w).outcome = Outcome.errChecksumMismatch ∧
    exitCode (run envC1w).outcome = 1 ∧
    (run envC1w).verified = false ∧
    (run envC1w).fs.exe = some ⟨FileData.original, envC1w.exeMode⟩ :=
  (checksum_comparison_exact envC1w (by decide) (by decide) (by decide) (by decide)
    (by decide) (by decide) (by decide) (by decide) (by decide) (by decide)).1 (by decide)

/-- Environment refuting C7's ordering: the manifest has no entry for the
platform's asset name. -/
def envC7x : Env :=
  { release := ⟨"v1.0.11", [⟨"cc-linux-amd64", "https://host/bin"⟩,
      ⟨"checksums.txt", "https://host/checksums.txt"⟩]⟩
    goos := "linux", goarch := "amd64"
    checksumFetchOk := true
    checksumData := digestOther ++ "  cc-darwin-arm64\n"
    binaryFetchOk := true, binaryStatus := 200
    createTempOk := true, writeTempOk := true, shaOk := true
    tempDigest := digestLower
    chmodOk := true, exePathOk := true
    winCopyOk := true, winWriteOk := true, exeMode := 0o755
    oracle := ⟨true, CopyOutcome.ok, true, CopyOutcome.ok, true, true⟩ }

/-- C7 counterexample: with a manifest lacking an entry for the asset, the
run fails with "no checksum found" WITHOUT ever downloading the binary and
WITHOUT any temporary file having existed — contradicting the claimed order
(binary downloaded into a temporary file before the lookup) and the claimed
deletion of a temporary file at that point. -/
theorem no_binary_download_before_lookup :
    (run envC7x).outcome = Outcome.errNoChecksumForAsset ∧
    (run envC7x).events = [Ev.downloadChecksums] ∧
    Ev.downloadBinary ∉ (run envC7x).events ∧
    (run envC7x).tempCreated = false := by decide

/-- C7 (amended): the checksum manifest is downloaded and parsed first, and
the expected digest for the binary's exact asset name is looked up
immediately after parsing, BEFORE the binary asset is downloaded; if the
entry is absent the flow fails with "no checksum found for this asset"
having performed only the manifest download and never having created a
temporary file (so there is none to delete). -/
theorem manifest_lookup_before_binary_download (env : Env)
    (htag : env.release.tagName ≠ VERSION)
    (hbin : (urlsOf env).1 ≠ "") (hsum : (urlsOf env).2 ≠ "")
    (hfetch : env.checksumFetchOk = true)
    (habs : expectedOf env = "") :
    (run env).outcome = Outcome.errNoChecksumForAsset ∧
    exitCode (run env).outcome = 1 ∧
    (run env).events = [Ev.downloadChecksums] ∧
    (run env).tempCreated = false ∧
    (run env).tempExistsAtEnd = false := by
  rw [run_eq_stageResolve env htag]
  unfold stageResolve
  rw [if_neg hbin, if_neg hsum]
  unfold stageManifest
  rw [if_neg (by simp [hfetch]), if_pos habs]
  exact ⟨rfl, rfl, rfl, rfl, rfl⟩

/-- C7 witness: the amended behavior at the concrete manifest-without-entry
environment. -/
theorem manifest_lookup_before_binary_download_witness :
    (run envC7x).outcome = Outcome.errNoChecksumForAsset ∧
    exitCode (run envC7x).outcome = 1 ∧
    (run envC7x).events = [Ev.downloadChecksums] ∧
    (run envC7x).tempCreated = false ∧
    (run envC7x).tempExistsAtEnd = false :=
  manifest_lookup_before_binary_download envC7x (by decide) (by decide) (by decide)
    (by decide) (by decide)

/-- Environment exhibiting the C4 divergence: a digest mismatch, with every
call before verification succeeding. -/
def envC4x : Env :=
  { release := ⟨"v1.0.11", [⟨"cc-linux-amd64", "https://host/bin"⟩,
      ⟨"checksums.txt", "https://host/checksums.txt"⟩]⟩
    goos := "linux", goarch := "amd64"
    checksumFetchOk := true
    checksumData := digestOther ++ "  cc-linux-amd64\n"
    binaryFetchOk := true, binaryStatus := 200
    createTempOk := true, writeTempOk := true, shaOk := true
    tempDigest := digestLower
    chmodOk := true, exePathOk := true
    winCopyOk := true, winWriteOk := true, exeMode := 0o755
    oracle := ⟨true, CopyOutcome.ok, true, CopyOutcome.ok, true, true⟩ }

/-- C4: on a digest mismatch the run terminates through `os.Exit(1)`, which
does NOT execute the deferred `os.Remove(tmpPath)`, so the temporary
download file still exists when the process has ended — contrary to the
claimed guaranteed removal on every verification-failure exit.  (When the
manifest lacks an entry for the asset, the run exits before any temporary
file is created, so that half of the claim is vacuous — see the C7
theorems.) -/
theorem temp_file_persists_after_mismatch_exit :
    (run envC4x).outcome = Outcome.errChecksumMismatch ∧
    exitCode (run envC4x).outcome = 1 ∧
    (run envC4x).tempCreated = true ∧
    (run envC4x).tempExistsAtEnd = true ∧
    (run envC4x).fs.tmp = some ⟨FileData.newBinary, 0o600⟩ := by decide

/-- Environment exhibiting the C3 counterexample: checksum verifies, the
backup rename of the running executable fails (e.g. no permission), and the
fallback direct copy fails during `io.Copy` after `os.Create` already
truncated the destination. -/
def envC3x : Env :=
  { release := ⟨"v1.0.11", [⟨"cc-linux-amd64", "https://host/bin"⟩,
      ⟨"checksums.txt", "https://host/checksums.txt"⟩]⟩
    goos := "linux", goarch := "amd64"
    checksumFetchOk := true
    checksumData := digestLower ++ "  cc-linux-amd64\n"
    binaryFetchOk := true, binaryStatus := 200
    createTempOk := true, writeTempOk := true, shaOk := true
    tempDigest := digestLower
    chmodOk := true, exePathOk := true
    winCopyOk := true, winWriteOk := true, exeMode := 0o755
    oracle := ⟨false, CopyOutcome.ioCopyFail, true, CopyOutcome.ok, true, true⟩ }

/-- C3 counterexample: when the first rename fails and the fallback direct
copy fails mid-copy, the run ends in failure with the canonical executable
path holding a partial file — the original is neither untouched there nor
restored from a backup (no `.old` backup exists on this branch), refuting
the claimed invariant for exactly the failure case the claim enumerates. -/
theorem failed_fallback_copy_corrupts_executable :
    (run envC3x).outcome = Outcome.errReplace ∧
    exitCode (run envC3x).outcome = 1 ∧
    (run envC3x).fs.exe = some ⟨FileData.truncatedData, 0o666⟩ ∧
    (run envC3x).fs.exe ≠ some ⟨FileData.original, envC3x.exeMode⟩ ∧
    (run envC3x).fs.old = none := by decide

/-- C3 (amended): before the replacement phase every failure leaves the
original executable untouched at its canonical path; within the Unix
replacement phase, when the backup rename succeeded and installation then
failed, the original is restored at the canonical path provided the
restoring rename of `.old` back succeeds; and when the backup rename
failed, a fallback copy that fails before writing (open or create failure)
leaves the original untouched.  (A fallback copy failing after `os.Create`
truncates the destination — the C3 counterexample — is the exception the
code actually has.) -/
theorem unix_replacement_rollback (o : UnixOracle) (g : FileC) (m : Nat) :
    (o.renameExeOld = true → o.renameRestore = true →
      (unixReplace o ⟨some ⟨FileData.original, m⟩, none, some g⟩).1 = ReplaceResult.failed →
      ((unixReplace o ⟨some ⟨FileData.original, m⟩, none, some g⟩).2).exe
        = some ⟨FileData.original, m⟩) ∧
    (o.renameExeOld = false →
      (o.copyNoBackup = CopyOutcome.openFail ∨ o.copyNoBackup = CopyOutcome.createFail) →
      ((unixReplace o ⟨some ⟨FileData.original, m⟩, none, some g⟩).2).exe
        = some ⟨FileData.original, m⟩) ∧
    (∀ env : Env, env.release.tagName ≠ VERSION → (run env).verified = false →
      (run env).fs.exe = some ⟨FileData.original, env.exeMode⟩) := by
  refine ⟨?_, ?_, ?_⟩
  · obtain ⟨b1, c1, b2, c2, b3, b4⟩ := o
    cases b1 <;> cases c1 <;> cases b2 <;> cases c2 <;> cases b3 <;> cases b4 <;>
      simp [unixReplace, copyFile]
  · obtain ⟨b1, c1, b2, c2, b3, b4⟩ := o
    cases b1 <;> cases c1 <;> cases b2 <;> cases c2 <;> cases b3 <;> cases b4 <;>
      simp [unixReplace, copyFile]
  · intro env htag hv
    rcases run_cases env htag with h | ⟨_, he, _⟩
    · rw [h, stageReplace_verified env] at hv
      cases hv
    · exact he

/-- C3 witness: a concrete scenario where the backup rename succeeded, the
rename of the new binary failed, the fallback copy failed, and the restore
rename succeeded: the original is back at the canonical path. -/
theorem unix_replacement_rollback_witness :
    (unixReplace ⟨true, CopyOutcome.ok, false, CopyOutcome.ioCopyFail, true, true⟩
      ⟨some ⟨FileData.original, 0o755⟩, none, some ⟨FileData.newBinary, 0o755⟩⟩).1
      = ReplaceResult.failed ∧
    ((unixReplace ⟨true, CopyOutcome.ok, false, CopyOutcome.ioCopyFail, true, true⟩
      ⟨some ⟨FileData.original, 0o755⟩, none, some ⟨FileData.newBinary, 0o755⟩⟩).2).exe
      = some ⟨FileData.original, 0o755⟩ :=
  ⟨by decide,
    (unix_replacement_rollback ⟨true, CopyOutcome.ok, false, CopyOutcome.ioCopyFail, true, true⟩
      ⟨FileData.newBinary, 0o755⟩ 0o755).1 (by decide) (by decide) (by decide)⟩

/-- C10: every successful installation leaves a file with mode 0755 at the
destination: the verified temporary file is chmodded to 0755 before
replacement (so the rename path installs a 0755 file), and `copyFile`
unconditionally sets mode 0755 on its destination after a successful byte
copy, regardless of the source file's mode. -/
theorem installed_binary_mode_0755 (env : Env) :
    (∀ src dst, copyFile CopyOutcome.ok src dst = (true, some ⟨src.data, 0o755⟩)) ∧
    ((run env).outcome = Outcome.installed →
      (run env).fs.exe = some ⟨FileData.newBinary, 0o755⟩) := by
  refine ⟨fun src dst => rfl, ?_⟩
  intro h
  by_cases htag : env.release.tagName = VERSION
  · unfold run at h
    rw [if_pos htag] at h
    simp at h
  rcases run_cases env htag with hr | ⟨ho, _, _⟩
  · rw [hr] at h ⊢
    rcases stageReplace_cases env with ⟨ho, _⟩ | ⟨fs2, hu, he⟩ | ⟨fs2, hu, he⟩
    · rw [h] at ho
      simp at ho
    · rw [he]
      have hexe := unixReplace_installed_exe env.oracle (fsAfterChmod env.exeMode) rfl
        (by rw [hu])
      rw [hu] at hexe
      simpa using hexe
    · rw [he] at h
      simp at h
  · rw [h] at ho
    simp at ho

/-- Environment for the C10 witness: everything succeeds on Linux via the
rename path. -/
def envC10w : Env :=
  { release := ⟨"v1.0.11", [⟨"cc-linux-amd64", "https://host/bin"⟩,
      ⟨"checksums.txt", "https://host/checksums.txt"⟩]⟩
    goos := "linux", goarch := "amd64"
    checksumFetchOk := true
    checksumData := digestLower ++ "  cc-linux-amd64\n"
    binaryFetchOk := true, binaryStatus := 200
    createTempOk := true, writeTempOk := true, shaOk := true
    tempDigest := digestLower
    chmodOk := true, exePathOk := true
    winCopyOk := true, winWriteOk := true, exeMode := 0o644
    oracle := ⟨true, CopyOutcome.ok, true, CopyOutcome.ok, true, true⟩ }

/-- C10 witness: a fully successful update installs the new binary at the
canonical path with mode 0755 (even though the previous executable had
mode 0644). -/
theorem installed_binary_mode_0755_witness :
    copyFile CopyOutcome.ok ⟨FileData.newBinary, 0o600⟩ none
      = (true, some ⟨FileData.newBinary, 0o755⟩) ∧
    (run envC10w).fs.exe = some ⟨FileData.newBinary, 0o755⟩ :=
  ⟨(installed_binary_mode_0755 envC10w).1 ⟨FileData.newBinary, 0o600⟩ none,
    (installed_binary_mode_0755 envC10w).2 (by decide)⟩

end ClaudeCommit
